import Mathlib

/-!
Verification of the architect-techtest repository: a shallow embedding of
the mock VM-provisioning SDK (src/sdk/) and the FastAPI HTTP layer
(src/main.py), with theorems settling the frozen specification claims.

Conventions of the embedding:
- Python exceptions become an explicit error type carried by Except.
- Python truthiness of optional strings and lists is modelled explicitly
  (None and the empty string / empty list are falsy).
- random.randint(1, 100) is modelled by an explicit draw parameter ranging
  over the 100 equiprobable outcomes 1..100; str(uuid4()) by an explicit
  fresh-identifier parameter; datetime.utcnow by an explicit clock value.
- jose.jwt.encode (a third-party library, out of repository scope) is
  modelled as an abstract signed-token constructor recording the payload,
  the secret and the algorithm.
-/

/-! Exception taxonomy of src/sdk/exceptions.py.  In the source,
ClientException derives from BaseException (not Exception); its two
subclasses are the only exceptions the SDK raises. -/

inductive ClientException where
  | authenticationError (msg : String)
  | noResourcesAvailableError (msg : String)
deriving DecidableEq, Repr

def ClientException.message : ClientException → String
  | .authenticationError m => m
  | .noResourcesAvailableError m => m

def ClientException.isAuthError : ClientException → Bool
  | .authenticationError _ => true
  | .noResourcesAvailableError _ => false

/-! VirtualMachine of src/sdk/models.py: id, name, cpu_cores, memory,
disk_size, public_ip (optional, default None), labels (default empty). -/

structure VirtualMachine where
  id : String
  name : String
  cpu_cores : Int
  memory : Int
  disk_size : Int
  public_ip : Option String
  labels : List String
deriving DecidableEq, Repr

/-! Client of src/sdk/client.py.  The class attribute authenticated
defaults to False; the constructor stores only api_key. -/

structure Client where
  api_key : Option String
  authenticated : Bool
deriving DecidableEq, Repr

def Client.init (api_key : Option String) : Client :=
  { api_key := api_key, authenticated := false }

/-- Python truthiness of an optional string: None and the empty string
are falsy, every other string is truthy (the test `not self.api_key`). -/
def optStrTruthy : Option String → Bool
  | none => false
  | some s => !s.isEmpty

/-- Python `labels or []` for `labels : list[str] = None`: None yields [],
and an explicit list is returned as is (an empty list is falsy in Python,
but `[] or []` is again [], so this clause is faithful). -/
def listOrEmpty : Option (List String) → List String
  | none => []
  | some l => l

/-- Client.authenticate: raises AuthenticationError("Invalid API key")
when the configured api_key is falsy; otherwise sets the authenticated
flag and returns it (now True) together with the updated client state. -/
def Client.authenticate (c : Client) : Except ClientException (Client × Bool) :=
  if !optStrTruthy c.api_key then
    .error (.authenticationError "Invalid API key")
  else
    .ok ({ c with authenticated := true }, true)

/-- Client.create_vm.  `draw` is the outcome of random.randint(1, 100)
and `freshId` the string produced by str(uuid4()); the client state is
only read (the method never writes any attribute). -/
def Client.create_vm (c : Client) (draw : Nat) (freshId : String)
    (name : String) (cpu_cores memory disk_size : Int)
    (public_ip : Option String) (labels : Option (List String)) :
    Except ClientException VirtualMachine :=
  if !c.authenticated then
    .error (.authenticationError "Not authenticated")
  else if draw == 1 then
    .error (.noResourcesAvailableError
      "No resources available to create a new virtual machine")
  else
    .ok { id := freshId, name := name, cpu_cores := cpu_cores,
          memory := memory, disk_size := disk_size, public_ip := public_ip,
          labels := listOrEmpty labels }

/-- Client.delete_vm: raises AuthenticationError when not authenticated,
otherwise returns True unconditionally — the mock keeps no record of
which identifiers exist. -/
def Client.delete_vm (c : Client) (vm_id : String) : Except ClientException Bool :=
  if !c.authenticated then
    .error (.authenticationError "Not authenticated")
  else
    .ok true

/-! HTTP layer of src/main.py. -/

/-- A row of the vms table (SQLAlchemy model VM in src/main.py).  The
columns are exactly id, name, cpu_cores, memory, disk_size, public_ip,
status, created_at, updated_at — there is no labels column. -/
structure VMRow where
  id : String
  name : String
  cpu_cores : Int
  memory : Int
  disk_size : Int
  public_ip : Option String
  status : String
  created_at : Nat
  updated_at : Nat
deriving DecidableEq, Repr

abbrev Db := List VMRow

/-- Request body of POST /vms (pydantic VMCreateRequest). -/
structure VMCreateRequest where
  name : String
  cpu_cores : Int
  memory : Int
  disk_size : Int
  public_ip : Option String
  labels : Option (List String)
deriving DecidableEq, Repr

/-- Response body (pydantic VMResponse). -/
structure VMResponse where
  id : String
  name : String
  cpu_cores : Int
  memory : Int
  disk_size : Int
  public_ip : Option String
  labels : List String
  status : String
  created_at : Nat
  updated_at : Nat
deriving DecidableEq, Repr

/-- Outcome of an endpoint call.  `httpError` is an HTTPException raised
by the handler (FastAPI turns it into a response with that status code
and detail).  `uncaught` is a ClientException escaping the handler: it
derives from BaseException, so the handlers' `except Exception` blocks do
not catch it and no HTTP response is built by the handler at all. -/
inductive Outcome where
  | ok (body : VMResponse)
  | httpError (status : Nat) (detail : String)
  | uncaught (e : ClientException)
deriving DecidableEq, Repr

structure EndpointResult where
  client : Client
  db : Db
  outcome : Outcome
deriving DecidableEq, Repr

/-- The POST /vms handler body (create_vm in src/main.py), entered after
the bearer-token dependency has succeeded.  `client` is the module-global
sdk_client, `draw`, `freshId` and `now` resolve the SDK's randomness and
the clock, and `persistErr` is the message of the exception raised by the
persistence layer during add/commit, if any (such exceptions derive from
Exception, so the handler catches them and raises HTTPException 500 with
str(e)).  A ClientException raised by authenticate or create_vm derives
from BaseException and escapes the `except Exception` block uncaught. -/
def createVmEndpoint (client : Client) (db : Db) (req : VMCreateRequest)
    (draw : Nat) (freshId : String) (now : Nat) (persistErr : Option String) :
    EndpointResult :=
  match client.authenticate with
  | .error e => ⟨client, db, .uncaught e⟩
  | .ok (c1, _) =>
    match c1.create_vm draw freshId req.name req.cpu_cores req.memory
        req.disk_size req.public_ip req.labels with
    | .error e => ⟨c1, db, .uncaught e⟩
    | .ok vm =>
      let row : VMRow :=
        { id := vm.id, name := vm.name, cpu_cores := vm.cpu_cores,
          memory := vm.memory, disk_size := vm.disk_size,
          public_ip := vm.public_ip, status := "created",
          created_at := now, updated_at := now }
      match persistErr with
      | some msg => ⟨c1, db, .httpError 500 msg⟩
      | none =>
        ⟨c1, db ++ [row],
         .ok { id := row.id, name := row.name, cpu_cores := row.cpu_cores,
               memory := row.memory, disk_size := row.disk_size,
               public_ip := row.public_ip,
               labels := listOrEmpty req.labels,
               status := row.status,
               created_at := row.created_at, updated_at := row.updated_at }⟩

/-- db.query(VM).filter(VM.id == vm_id).first(). -/
def findVM (db : Db) (vm_id : String) : Option VMRow :=
  db.find? (fun r => r.id == vm_id)

/-- The DELETE /vms/vm_id handler body (delete_vm in src/main.py),
entered after the bearer-token dependency has succeeded.  When the row is
absent, the handler raises HTTPException(404, "VM not found") inside the
try block; fastapi.HTTPException derives from Exception, so the blanket
`except Exception` catches it and re-raises HTTPException(500, str(e)),
and str of a starlette HTTPException is "status_code: detail", here
"404: VM not found". -/
def deleteVmEndpoint (client : Client) (db : Db) (vm_id : String)
    (persistErr : Option String) : EndpointResult :=
  match client.authenticate with
  | .error e => ⟨client, db, .uncaught e⟩
  | .ok (c1, _) =>
    match c1.delete_vm vm_id with
    | .error e => ⟨c1, db, .uncaught e⟩
    | .ok _ =>
      match findVM db vm_id with
      | none => ⟨c1, db, .httpError 500 "404: VM not found"⟩
      | some vm =>
        match persistErr with
        | some msg => ⟨c1, db, .httpError 500 msg⟩
        | none =>
          ⟨c1, db.eraseP (fun r => r.id == vm_id),
           .ok { id := vm.id, name := vm.name, cpu_cores := vm.cpu_cores,
                 memory := vm.memory, disk_size := vm.disk_size,
                 public_ip := vm.public_ip, labels := [],
                 status := "deleted",
                 created_at := vm.created_at, updated_at := vm.updated_at }⟩

/-! The token endpoint (login in src/main.py). -/

/-- Abstract model of jose.jwt.encode for a payload with a single claim
sub: the token is determined by the subject, the secret and the
algorithm. -/
structure JwtToken where
  sub : String
  secret : String
  alg : String
deriving DecidableEq, Repr

/-- SECRET_KEY = os.getenv("SECRET_KEY", "dev_secret_key"). -/
def SECRET_KEY (env : Option String) : String :=
  env.getD "dev_secret_key"

/-- ALGORITHM = "HS256". -/
def ALGORITHM : String := "HS256"

structure TokenResponse where
  access_token : JwtToken
  token_type : String
deriving DecidableEq, Repr

/-- POST /token: encodes a token with claim sub = username and returns it
with token_type "bearer"; the password is never inspected. -/
def login (env : Option String) (username _password : String) : TokenResponse :=
  { access_token :=
      { sub := username, secret := SECRET_KEY env, alg := ALGORITHM },
    token_type := "bearer" }

/-! A request-level step machine over the two VM endpoints, for stating
reachability invariants of the persisted table. -/

/-- One authorized HTTP request to a VM endpoint, with the
nondeterministic inputs (random draw, fresh uuid, clock, persistence
failure) made explicit. -/
inductive ApiRequest where
  | create (req : VMCreateRequest) (draw : Nat) (freshId : String)
      (now : Nat) (persistErr : Option String)
  | delete (vm_id : String) (persistErr : Option String)
deriving DecidableEq, Repr

/-- Effect of one request on the module-global sdk_client and the table. -/
def apiStep : Client × Db → ApiRequest → Client × Db
  | (c, db), .create req draw freshId now pe =>
    let r := createVmEndpoint c db req draw freshId now pe
    (r.client, r.db)
  | (c, db), .delete vm_id pe =>
    let r := deleteVmEndpoint c db vm_id pe
    (r.client, r.db)

/-- States reachable from a fresh server (client built from the
environment api key, empty table) by a sequence of requests. -/
def runApi (apiKey : Option String) (reqs : List ApiRequest) : Client × Db :=
  reqs.foldl apiStep (Client.init apiKey, [])

theorem apiStep_status_created (s : Client × Db) (r : ApiRequest)
    (h : ∀ row ∈ s.2, row.status = "created") :
    ∀ row ∈ (apiStep s r).2, row.status = "created" := by
  obtain ⟨c, db⟩ := s
  cases r with
  | create req draw freshId now pe =>
    simp only [apiStep, createVmEndpoint]
    split
    · exact h
    · split
      · exact h
      · split
        · exact h
        · intro row hrow
          rcases List.mem_append.1 hrow with h1 | h1
          · exact h _ h1
          · rw [List.mem_singleton.1 h1]
  | delete vm_id pe =>
    simp only [apiStep, deleteVmEndpoint]
    split
    · exact h
    · split
      · exact h
      · split
        · exact h
        · split
          · exact h
          · intro row hrow
            exact h _ ((List.eraseP_sublist db).subset hrow)

theorem foldl_apiStep_status_created (reqs : List ApiRequest)
    (s : Client × Db) (h : ∀ row ∈ s.2, row.status = "created") :
    ∀ row ∈ (reqs.foldl apiStep s).2, row.status = "created" := by
  induction reqs generalizing s with
  | nil => exact h
  | cons r rs ih => exact ih _ (apiStep_status_created s r h)

/-! SDK-level helpers for the claim statements. -/

def isNoResources : Except ClientException VirtualMachine → Bool
  | .error (.noResourcesAvailableError _) => true
  | _ => false

def exceptIsAuthError {α : Type} : Except ClientException α → Bool
  | .error e => e.isAuthError
  | .ok _ => false

/-- One SDK method call, with the nondeterministic inputs explicit. -/
inductive SdkOp where
  | authenticateOp
  | createOp (draw : Nat) (freshId : String) (name : String)
      (cpu_cores memory disk_size : Int) (public_ip : Option String)
      (labels : Option (List String))
  | deleteOp (vm_id : String)
deriving DecidableEq, Repr

/-- Effect of one SDK method call on the client state.  In the source,
authenticate assigns self.authenticated = True on its success path and
raises before any assignment otherwise; create_vm and delete_vm only
read self.authenticated and never assign any attribute, so they leave
the client state unchanged on every path. -/
def sdkStep (c : Client) : SdkOp → Client
  | .authenticateOp =>
    match c.authenticate with
    | .ok (c1, _) => c1
    | .error _ => c
  | .createOp .. => c
  | .deleteOp _ => c

/-- Claim C5: authenticate raises AuthenticationError when no API key is
configured, and for every nonempty API key it sets the authenticated
flag to true and returns true. -/
theorem C5_authenticate_contract (c : Client) (s : String) :
    (c.api_key = none →
      c.authenticate = .error (.authenticationError "Invalid API key")) ∧
    (c.api_key = some s → s ≠ "" →
      c.authenticate = .ok ({ c with authenticated := true }, true)) := by
  constructor
  · intro h
    simp [Client.authenticate, optStrTruthy, h]
  · intro h hs
    simp [Client.authenticate, optStrTruthy, h, String.isEmpty_iff, hs]

theorem C5_authenticate_contract_witness :
    (Client.init none).authenticate =
      .error (.authenticationError "Invalid API key") ∧
    (Client.init (some "1234")).authenticate =
      .ok ({ api_key := some "1234", authenticated := true }, true) :=
  ⟨(C5_authenticate_contract (Client.init none) "1234").1 rfl,
   (C5_authenticate_contract (Client.init (some "1234")) "1234").2 rfl
     (by decide)⟩

/-- Claim C9: an empty-string API key is falsy under the `not
self.api_key` check, so authenticate raises AuthenticationError exactly
as for a missing key. -/
theorem C9_empty_api_key_rejected :
    (Client.init (some "")).authenticate =
      .error (.authenticationError "Invalid API key") ∧
    (Client.init (some "")).authenticate = (Client.init none).authenticate :=
  ⟨rfl, rfl⟩

/-- Claim C6: delete_vm raises AuthenticationError when the client is
not authenticated, and when authenticated returns true for every vm_id
without consulting any record of existing identifiers. -/
theorem C6_delete_vm_contract (c : Client) (vm_id : String) :
    (c.authenticated = false →
      c.delete_vm vm_id = .error (.authenticationError "Not authenticated")) ∧
    (c.authenticated = true → c.delete_vm vm_id = .ok true) := by
  constructor
  · intro h
    simp [Client.delete_vm, h]
  · intro h
    simp [Client.delete_vm, h]

theorem C6_delete_vm_contract_witness :
    (Client.init (some "k")).delete_vm "any-id" =
      .error (.authenticationError "Not authenticated") ∧
    ({ api_key := some "k", authenticated := true } : Client).delete_vm
      "no-such-id" = .ok true :=
  ⟨(C6_delete_vm_contract (Client.init (some "k")) "any-id").1 rfl,
   (C6_delete_vm_contract { api_key := some "k", authenticated := true }
     "no-such-id").2 rfl⟩

/-- Claim C4: create_vm raises AuthenticationError when not
authenticated; when authenticated, among the 100 equiprobable outcomes
of random.randint(1, 100) exactly the draw 1 raises
NoResourcesAvailableError (a uniform 1% probability), and every other
draw returns a VirtualMachine whose id is the freshly generated
identifier and whose remaining fields are the supplied arguments, with
labels defaulting to the empty list when omitted. -/
theorem C4_create_vm_contract (c : Client) (draw : Nat) (freshId name : String)
    (cpu mem dsk : Int) (ip : Option String) (lbls : Option (List String)) :
    (c.authenticated = false →
      c.create_vm draw freshId name cpu mem dsk ip lbls =
        .error (.authenticationError "Not authenticated")) ∧
    (c.authenticated = true →
      (List.range' 1 100).filter
          (fun d => isNoResources (c.create_vm d freshId name cpu mem dsk ip lbls)) =
        [1] ∧
      (List.range' 1 100).length = 100) ∧
    (c.authenticated = true → draw ≠ 1 →
      c.create_vm draw freshId name cpu mem dsk ip lbls =
        .ok { id := freshId, name := name, cpu_cores := cpu, memory := mem,
              disk_size := dsk, public_ip := ip,
              labels := listOrEmpty lbls }) ∧
    listOrEmpty none = [] := by
  refine ⟨?_, ?_, ?_, rfl⟩
  · intro h
    simp [Client.create_vm, h]
  · intro h
    constructor
    · have hpt : ∀ d : Nat,
          isNoResources (c.create_vm d freshId name cpu mem dsk ip lbls) =
            (d == 1) := by
        intro d
        by_cases hd : d = 1
        · simp [Client.create_vm, h, hd, isNoResources]
        · simp [Client.create_vm, h, hd, isNoResources]
      simp only [hpt]
      decide
    · decide
  · intro h hd
    simp [Client.create_vm, h, hd]

theorem C4_create_vm_contract_witness :
    ((Client.init (some "k")).create_vm 2 "fresh-id" "my-vm" 1 512 10 none
        none =
      .error (.authenticationError "Not authenticated")) ∧
    (List.range' 1 100).filter
        (fun d => isNoResources
          (({ api_key := some "k", authenticated := true } : Client).create_vm
            d "fresh-id" "my-vm" 1 512 10 none none)) = [1] ∧
    (({ api_key := some "k", authenticated := true } : Client).create_vm 2
        "fresh-id" "my-vm" 1 512 10 none none =
      .ok { id := "fresh-id", name := "my-vm", cpu_cores := 1, memory := 512,
            disk_size := 10, public_ip := none, labels := [] }) :=
  ⟨(C4_create_vm_contract (Client.init (some "k")) 2 "fresh-id" "my-vm" 1 512
      10 none none).1 rfl,
   ((C4_create_vm_contract { api_key := some "k", authenticated := true } 2
      "fresh-id" "my-vm" 1 512 10 none none).2.1 rfl).1,
   (C4_create_vm_contract { api_key := some "k", authenticated := true } 2
      "fresh-id" "my-vm" 1 512 10 none none).2.2.1 rfl (by decide)⟩

/-- Claim C10: the authenticated flag starts false, is set to true only
by a successful authenticate, and no SDK call ever resets it to false
(create_vm and delete_vm never write client state, whatever their
outcome); once it is true, create_vm and delete_vm pass the
authentication check. -/
theorem C10_authenticated_flag_monotone (k : Option String) (c : Client)
    (op : SdkOp) (draw : Nat) (freshId name vmid : String)
    (cpu mem dsk : Int) (ip : Option String) (lbls : Option (List String)) :
    (Client.init k).authenticated = false ∧
    (c.authenticated = true → (sdkStep c op).authenticated = true) ∧
    ((sdkStep c op).authenticated = true →
      c.authenticated = true ∨
        (op = .authenticateOp ∧ optStrTruthy c.api_key = true)) ∧
    (c.authenticated = true →
      exceptIsAuthError (c.create_vm draw freshId name cpu mem dsk ip lbls) =
        false ∧
      c.delete_vm vmid = .ok true) := by
  refine ⟨rfl, ?_, ?_, ?_⟩
  · intro h
    cases op with
    | authenticateOp =>
      by_cases hk : optStrTruthy c.api_key = true
      · simp [sdkStep, Client.authenticate, hk]
      · simp [sdkStep, Client.authenticate, hk, h]
    | createOp draw freshId name cpu mem dsk ip lbls => exact h
    | deleteOp vmid => exact h
  · intro h
    cases op with
    | authenticateOp =>
      by_cases hk : optStrTruthy c.api_key = true
      · exact .inr ⟨rfl, hk⟩
      · simp only [sdkStep, Client.authenticate] at h
        simp [hk] at h
        exact .inl h
    | createOp draw freshId name cpu mem dsk ip lbls => exact .inl h
    | deleteOp vmid => exact .inl h
  · intro h
    constructor
    · by_cases hd : draw = 1
      · simp [Client.create_vm, h, hd, exceptIsAuthError,
          ClientException.isAuthError]
      · simp [Client.create_vm, h, hd, exceptIsAuthError]
    · simp [Client.delete_vm, h]

theorem C10_authenticated_flag_monotone_witness :
    (Client.init (some "k")).authenticated = false ∧
    (sdkStep { api_key := some "k", authenticated := true }
        (SdkOp.createOp 1 "fresh-id" "my-vm" 1 512 10 none
          none)).authenticated = true ∧
    ({ api_key := some "k", authenticated := true } : Client).delete_vm
      "vm-1" = .ok true :=
  ⟨(C10_authenticated_flag_monotone (some "k")
      { api_key := some "k", authenticated := true }
      (SdkOp.createOp 1 "fresh-id" "my-vm" 1 512 10 none none) 1 "fresh-id"
      "my-vm" "vm-1" 1 512 10 none none).1,
   (C10_authenticated_flag_monotone (some "k")
      { api_key := some "k", authenticated := true }
      (SdkOp.createOp 1 "fresh-id" "my-vm" 1 512 10 none none) 1 "fresh-id"
      "my-vm" "vm-1" 1 512 10 none none).2.1 rfl,
   ((C10_authenticated_flag_monotone (some "k")
      { api_key := some "k", authenticated := true }
      (SdkOp.createOp 1 "fresh-id" "my-vm" 1 512 10 none none) 1 "fresh-id"
      "my-vm" "vm-1" 1 512 10 none none).2.2.2 rfl).2⟩

/-- Claim C7: in every table state reachable from a fresh server through
the POST /vms and DELETE /vms/vm_id endpoints, every stored row has
status "created"; a "deleted" status is never stored because deletion
removes the row entirely. -/
theorem C7_stored_rows_always_created (apiKey : Option String)
    (reqs : List ApiRequest) (row : VMRow)
    (h : row ∈ (runApi apiKey reqs).2) : row.status = "created" :=
  foldl_apiStep_status_created reqs (Client.init apiKey, [])
    (fun r hr => nomatch hr) row h

theorem C7_stored_rows_always_created_witness :
    ({ id := "id-1", name := "test-vm", cpu_cores := 2, memory := 4096,
       disk_size := 50, public_ip := none, status := "created",
       created_at := 0, updated_at := 0 } : VMRow).status = "created" :=
  C7_stored_rows_always_created (some "k")
    [ApiRequest.create
      { name := "test-vm", cpu_cores := 2, memory := 4096, disk_size := 50,
        public_ip := none, labels := none } 2 "id-1" 0 none]
    { id := "id-1", name := "test-vm", cpu_cores := 2, memory := 4096,
      disk_size := 50, public_ip := none, status := "created",
      created_at := 0, updated_at := 0 }
    (by decide)

/-- Claim C8: POST /token succeeds for every username/password pair and
returns token_type "bearer" together with an HS256-signed token whose
sub claim is the submitted username; no credential verification happens,
so the response is independent of the password. -/
theorem C8_login_contract (env : Option String) (u p p2 : String) :
    login env u p =
      { access_token :=
          { sub := u, secret := SECRET_KEY env, alg := "HS256" },
        token_type := "bearer" } ∧
    login env u p = login env u p2 :=
  ⟨rfl, rfl⟩

/-- Claim C1 (code divergence): ClientException derives from
BaseException, so AuthenticationError and NoResourcesAvailableError
escape the handlers' blanket `except Exception` blocks uncaught instead
of being converted to a 500 response; only persistence-layer exceptions,
which derive from Exception, become HTTP 500 with the exception text. -/
theorem C1_sdk_exceptions_escape_except_block :
    (createVmEndpoint (Client.init none) []
        { name := "test-vm", cpu_cores := 2, memory := 4096, disk_size := 50,
          public_ip := none, labels := none } 2 "id-1" 0 none).outcome =
      .uncaught (.authenticationError "Invalid API key") ∧
    (createVmEndpoint (Client.init (some "key")) []
        { name := "test-vm", cpu_cores := 2, memory := 4096, disk_size := 50,
          public_ip := none, labels := none } 1 "id-1" 0 none).outcome =
      .uncaught (.noResourcesAvailableError
        "No resources available to create a new virtual machine") ∧
    (createVmEndpoint (Client.init (some "key")) []
        { name := "test-vm", cpu_cores := 2, memory := 4096, disk_size := 50,
          public_ip := none, labels := none } 2 "id-1" 0
        (some "database is locked")).outcome =
      .httpError 500 "database is locked" ∧
    (deleteVmEndpoint (Client.init none) [] "vm-1" none).outcome =
      .uncaught (.authenticationError "Invalid API key") ∧
    (deleteVmEndpoint (Client.init (some "key"))
        [{ id := "vm-1", name := "test-vm", cpu_cores := 2, memory := 4096,
           disk_size := 50, public_ip := none, status := "created",
           created_at := 0, updated_at := 0 }] "vm-1"
        (some "database is locked")).outcome =
      .httpError 500 "database is locked" :=
  ⟨rfl, rfl, rfl, rfl, rfl⟩

/-- Claim C2 (code divergence): for a missing row the handler raises
HTTPException(404, "VM not found") inside its own try block; that
exception derives from Exception, so the blanket `except Exception`
catches it and re-raises HTTPException(500, str(e)).  The endpoint
therefore answers 500 with detail "404: VM not found", not 404; the
table is indeed left unchanged. -/
theorem C2_delete_missing_vm_gives_500 :
    (deleteVmEndpoint (Client.init (some "key"))
        [{ id := "other-vm", name := "n", cpu_cores := 1, memory := 512,
           disk_size := 10, public_ip := none, status := "created",
           created_at := 0, updated_at := 0 }] "ghost-vm" none).outcome =
      .httpError 500 "404: VM not found" ∧
    (deleteVmEndpoint (Client.init (some "key"))
        [{ id := "other-vm", name := "n", cpu_cores := 1, memory := 512,
           disk_size := 10, public_ip := none, status := "created",
           created_at := 0, updated_at := 0 }] "ghost-vm" none).db =
      [{ id := "other-vm", name := "n", cpu_cores := 1, memory := 512,
         disk_size := 10, public_ip := none, status := "created",
         created_at := 0, updated_at := 0 }] :=
  ⟨rfl, rfl⟩

/-- Claim C3 counterexample: two create requests identical except for
their labels persist exactly the same row — the vms table has no labels
column, so the stored record does not contain the labels field of the
returned VirtualMachine. -/
theorem C3_labels_not_persisted_counterexample :
    (createVmEndpoint (Client.init (some "key")) []
        { name := "test-vm", cpu_cores := 2, memory := 4096, disk_size := 50,
          public_ip := none, labels := some ["env:prod"] }
        2 "id-1" 7 none).db =
    (createVmEndpoint (Client.init (some "key")) []
        { name := "test-vm", cpu_cores := 2, memory := 4096, disk_size := 50,
          public_ip := none, labels := none }
        2 "id-1" 7 none).db ∧
    some ["env:prod"] ≠ (none : Option (List String)) :=
  ⟨rfl, by decide⟩

/-- Claim C3 as amended: a successful POST /vms appends exactly one row
storing the returned VirtualMachine's id, name, cpu_cores, memory,
disk_size and public_ip plus status "created" and the created_at and
updated_at timestamps; labels are not persisted — the response's labels
echo the request's labels. -/
theorem C3_persisted_record_fields (client : Client) (db : Db)
    (req : VMCreateRequest) (draw : Nat) (freshId : String) (now : Nat)
    (hk : optStrTruthy client.api_key = true) (hd : draw ≠ 1) :
    (createVmEndpoint client db req draw freshId now none).db =
      db ++ [{ id := freshId, name := req.name, cpu_cores := req.cpu_cores,
               memory := req.memory, disk_size := req.disk_size,
               public_ip := req.public_ip, status := "created",
               created_at := now, updated_at := now }] ∧
    (createVmEndpoint client db req draw freshId now none).outcome =
      .ok { id := freshId, name := req.name, cpu_cores := req.cpu_cores,
            memory := req.memory, disk_size := req.disk_size,
            public_ip := req.public_ip, labels := listOrEmpty req.labels,
            status := "created", created_at := now, updated_at := now } := by
  constructor <;>
    simp [createVmEndpoint, Client.authenticate, Client.create_vm, hk, hd]

theorem C3_persisted_record_fields_witness :
    (createVmEndpoint (Client.init (some "key")) []
        { name := "test-vm", cpu_cores := 2, memory := 4096, disk_size := 50,
          public_ip := none, labels := some ["env:prod"] } 2 "id-1" 7
        none).db =
      [{ id := "id-1", name := "test-vm", cpu_cores := 2, memory := 4096,
         disk_size := 50, public_ip := none, status := "created",
         created_at := 7, updated_at := 7 }] :=
  (C3_persisted_record_fields (Client.init (some "key")) []
    { name := "test-vm", cpu_cores := 2, memory := 4096, disk_size := 50,
      public_ip := none, labels := some ["env:prod"] } 2 "id-1" 7
    (by decide) (by decide)).1
